import Mathlib

/-
Verification of the errorcat package (errorcat.go, context.go): a shallow
embedding of the Catch / Recover / context operations and proofs about the
annotation chain, boundary interception and misuse faults.

Go error values constructed by this code are modelled by the inductive
GoError below.  Interface identity of sentinel errors is modelled by
structural equality; arbitrary external errors carry a numeric id so that
distinct errors stay distinct.
-/

/-- Go error values as constructed by errorcat.
    user: an arbitrary external error value (id keeps values distinct);
    txt: an error from Errorf with no wrap directive (anonymous error);
    wrap2: Errorf with two wrap directives, prefix-colon message, unwraps to both;
    wrap: Errorf with a textual prefix and one wrap directive;
    wrapTail: Errorf with one leading wrap directive and trailing text;
    catErr: the CatError wrapper produced by Catch. -/
inductive GoError where
  | errUnknown : GoError
  | errBadCatch : GoError
  | user (id : Nat) (m : String) : GoError
  | txt (m : String) : GoError
  | wrap2 (a b : GoError) : GoError
  | wrap (pfx : String) (inner : GoError) : GoError
  | wrapTail (inner : GoError) (tail : String) : GoError
  | catErr (inner : GoError) : GoError
deriving DecidableEq, Repr

/-- Message of an error, following the Error methods and Errorf format strings
    in the source.  errUnknown and errBadCatch carry the texts from the two
    sentinel declarations; CatError.Error returns the message of the wrapped
    error. -/
def GoError.msg : GoError → String
  | .errUnknown => "unknown error"
  | .errBadCatch => "bad catch usage"
  | .user _ m => m
  | .txt m => m
  | .wrap2 a b => a.msg ++ ": " ++ b.msg
  | .wrap pfx inner => pfx ++ ": " ++ inner.msg
  | .wrapTail inner tail => inner.msg ++ tail
  | .catErr inner => inner.msg

/-- Unwrap-style matching in the style of the standard errors package:
    an error matches a target when it equals it or when a wrapped child
    matches it.  wrap2 exposes both wrapped errors. -/
def GoError.is (e t : GoError) : Bool :=
  e == t ||
    match e with
    | .wrap2 a b => a.is t || b.is t
    | .wrap _ inner => inner.is t
    | .wrapTail inner _ => inner.is t
    | .catErr inner => inner.is t
    | _ => false

/-- The condition argument of Catch.  nilv is the nil interface; errNil is an
    error variable holding nil, which when passed as an interface value is the
    nil interface and is treated identically; errv is a non-nil error; boolean
    for bool conditions; otherv is any other dynamic type with its textual
    form. -/
inductive CondVal where
  | nilv : CondVal
  | errNil : CondVal
  | errv (e : GoError) : CondVal
  | boolean (b : Bool) : CondVal
  | otherv (txt : String) : CondVal
deriving DecidableEq, Repr

/-- The problem argument of Catch: nil or omitted, an error, or any other
    value rendered through its textual form (strings fall in the default
    branch of the type switch and are rendered verbatim). -/
inductive ProbVal where
  | nilv : ProbVal
  | errv (e : GoError) : ProbVal
  | val (txt : String) : ProbVal
deriving DecidableEq, Repr

/-- One step of the chain passed to Recover: a transform callback
    (func(err error) error, possibly returning nil), an error, a string, or
    any other value rendered through its textual form. -/
inductive Annot where
  | fn (f : GoError → Option GoError) : Annot
  | errv (e : GoError) : Annot
  | str (s : String) : Annot
  | val (txt : String) : Annot

/-- A Go panic payload seen by Recover: goErr is a value implementing error
    (including CatError via GoError.catErr); raw is any non-error payload with
    its textual form, such as the plain string panics raised by the context
    misuse checks. -/
inductive PanicVal where
  | goErr (e : GoError) : PanicVal
  | raw (txt : String) : PanicVal
deriving DecidableEq, Repr

/-- Panic text of the duplicate-Recover check in context.OnRecover. -/
def dupRecoverFault : String := "[errorcat] Duplicate call to Recover"

/-- Panic text of the post-recovery check in context.Catch. -/
def catchAfterRecoveryFault : String := "[errorcat] Catch was called after recovery."

/-- The default context implementation: the errorRef pointer is modelled by a
    presence flag (the value behind the pointer is threaded separately), plus
    the recoverCalled flag. -/
structure context where
  hasErrorRef : Bool
  recoverCalled : Bool
deriving DecidableEq, Repr

/-- problem1 extraction at the top of Catch: first variadic argument, or nil
    when omitted. -/
def problemHead : List ProbVal → ProbVal
  | [] => .nilv
  | p :: _ => p

/-- Catch(condition, problem...).  Returns none when Catch returns normally,
    and some e when it panics with CatError carrying e.  The inner nil check
    of the error case is vacuous once the top-level nil check has passed, so
    the error case always aborts. -/
def Catch (condition : CondVal) (problem : List ProbVal) : Option GoError :=
  match condition with
  | .nilv => none
  | .errNil => none
  | .errv cond =>
    match problemHead problem with
    | .errv p => some (.wrap2 p cond)
    | .nilv => some cond
    | .val t => some (.wrap t cond)
  | .boolean b =>
    if b then
      match problemHead problem with
      | .errv p => some p
      | .nilv => some .errUnknown
      | .val t => some (.txt t)
    else none
  | .otherv t => some (.wrapTail .errBadCatch (": unknown catch condition type: " ++ t))

/-- The panic payload produced by Catch: the constructed error wrapped in
    CatError. -/
def catchPanic (condition : CondVal) (problem : List ProbVal) : Option PanicVal :=
  (Catch condition problem).map (fun e => .goErr (.catErr e))

/-- context.OnRecover: panics (error) on a duplicate call, otherwise marks the
    context and returns it. -/
def context.OnRecover (c : context) : Except String context :=
  if c.recoverCalled then .error dupRecoverFault
  else .ok { c with recoverCalled := true }

/-- context.Catch: panics with the plain misuse string once Recover has been
    called on the context, otherwise delegates to the package-level Catch. -/
def context.Catch (c : context) (condition : CondVal) (problem : List ProbVal) :
    Option PanicVal :=
  if c.recoverCalled then some (.raw catchAfterRecoveryFault)
  else catchPanic condition problem

/-- One iteration of the annotation loop in Recover: the type switch over the
    annotator value. -/
def applyAnnot : Annot → GoError → Option GoError
  | .fn f, e => f e
  | .errv a, e => some (.wrap2 a e)
  | .str s, e => some (.wrap s e)
  | .val t, e => some (.wrap t e)

/-- The annotation loop of Recover, entered with a non-nil captured error:
    applies each step in order and stops as soon as a step yields no error. -/
def annotateChain : GoError → List Annot → Option GoError
  | e, [] => some e
  | e, a :: rest =>
    match applyAnnot a e with
    | none => none
    | some e2 => annotateChain e2 rest

/-- The guard around the annotation loop: the loop runs only when the captured
    error is non-nil. -/
def annotateOpt : Option GoError → List Annot → Option GoError
  | none, _ => none
  | some e, ann => annotateChain e ann

/-- How Recover converts a recovered panic payload into the captured error:
    an error payload is kept, with one CatError layer unwrapped; any other
    payload becomes an anonymous error carrying its textual form. -/
def capturePanic : PanicVal → GoError
  | .goErr (.catErr inner) => inner
  | .goErr e => e
  | .raw t => .txt t

/-- The captured error at the start of Recover: the current slot value when a
    slot exists and no panic is in flight, else the converted panic payload. -/
def recoverCaptured (slot : Option (Option GoError)) (inflight : Option PanicVal) :
    Option GoError :=
  match inflight with
  | none =>
    match slot with
    | some v => v
    | none => none
  | some p => some (capturePanic p)

/-- Outcome of one Recover activation: fault means Recover itself panicked
    (the duplicate-Recover check); done carries the final captured value and,
    when a slot exists, the value written through it. -/
inductive RecOutcome where
  | fault (m : String) : RecOutcome
  | done (captured : Option GoError) (slotWrite : Option (Option GoError)) : RecOutcome

/-- The body of Recover after target resolution: capture, annotate, and write
    back through the slot when one exists. -/
def recoverBody (slot : Option (Option GoError)) (inflight : Option PanicVal)
    (ann : List Annot) : RecOutcome :=
  .done (annotateOpt (recoverCaptured slot inflight) ann)
    (match slot with
     | some _ => some (annotateOpt (recoverCaptured slot inflight) ann)
     | none => none)

/-- The target argument of Recover: an error pointer, a Context, nil, or any
    other value (which the type switch silently ignores). -/
inductive CtParam where
  | errRef : CtParam
  | ctx (c : context) : CtParam
  | nilv : CtParam
  | otherv (txt : String) : CtParam

/-- Recover(ctparam, annotate...).  slotVal is the current value of the error
    variable the resolved pointer refers to; inflight is the in-flight panic
    payload recovered, if any.  A Context target goes through OnRecover first,
    whose duplicate-call panic aborts Recover itself. -/
def Recover (ctparam : CtParam) (slotVal : Option GoError) (inflight : Option PanicVal)
    (ann : List Annot) : RecOutcome :=
  match ctparam with
  | .errRef => recoverBody (some slotVal) inflight ann
  | .ctx c =>
    match c.OnRecover with
    | .error m => .fault m
    | .ok _ => recoverBody (if c.hasErrorRef then some slotVal else none) inflight ann
  | .nilv => recoverBody none inflight ann
  | .otherv _ => recoverBody none inflight ann

/-- The description-chain concatenation formula in the words of the spec:
    each description becomes a prefix joined with a colon-space delimiter,
    later steps outermost. -/
def specDescConcat : List String → String → String
  | [], m => m
  | d :: rest, m => specDescConcat rest (d ++ ": " ++ m)

/- Helper lemmas -/

/-- The annotation loop over an appended chain is the monadic composition of
    the loops over the parts: once a step clears the error the rest of the
    chain is ignored. -/
theorem annotateChain_append (xs ys : List Annot) (e : GoError) :
    annotateChain e (xs ++ ys) =
      (annotateChain e xs).bind (fun x => annotateChain x ys) := by
  induction xs generalizing e with
  | nil => rfl
  | cons a rest ih =>
    simp only [List.cons_append, annotateChain]
    cases applyAnnot a e with
    | none => rfl
    | some e2 => exact ih e2

/-- A chain of description steps never clears the error: it folds the
    descriptions onto the error as prefixes, later steps outermost. -/
theorem annotateChain_descs (ds : List String) (e : GoError) :
    annotateChain e (ds.map Annot.str) =
      some (ds.foldl (fun x d => GoError.wrap d x) e) := by
  induction ds generalizing e with
  | nil => rfl
  | cons d rest ih =>
    simp only [List.map, annotateChain, applyAnnot]
    exact ih (.wrap d e)

/-- Message of the description fold is the concatenation formula of the
    spec. -/
theorem foldl_wrap_msg (ds : List String) (e : GoError) :
    (ds.foldl (fun x d => GoError.wrap d x) e).msg = specDescConcat ds e.msg := by
  induction ds generalizing e with
  | nil => rfl
  | cons d rest ih =>
    simp only [List.foldl, specDescConcat]
    exact ih (.wrap d e)

/- Claim theorems -/

/-- Claim C1: the annotation chain of Recover is applied left-to-right: for a
    caught error E and steps [A, B, C] that are all transform functions the
    final error is the left-to-right composition C(B(A(E))) (with the no-error
    short-circuit, i.e. monadic composition); when all steps are description
    strings the message of the result is the exact prefix concatenation with
    a colon-space delimiter, and the concrete description chain
    [first, second] over the thrown problem bad condition produces exactly
    the message second: first: bad condition through the full Catch/Recover
    pipeline. -/
theorem recover_chain_ordering (A B C : GoError → Option GoError) (E : GoError)
    (ds : List String) :
    annotateChain E [.fn A, .fn B, .fn C] = ((A E).bind B).bind C ∧
    (annotateChain E (ds.map Annot.str)).map GoError.msg =
      some (specDescConcat ds E.msg) ∧
    Recover .errRef none (catchPanic (.boolean true) [.val "bad condition"])
        [.str "first", .str "second"] =
      .done (some (.wrap "second" (.wrap "first" (.txt "bad condition"))))
        (some (some (.wrap "second" (.wrap "first" (.txt "bad condition"))))) ∧
    (GoError.wrap "second" (.wrap "first" (.txt "bad condition"))).msg =
      "second: first: bad condition" := by
  refine ⟨?_, ?_, rfl, rfl⟩
  · cases hA : A E with
    | none => simp [annotateChain, applyAnnot, hA]
    | some e1 =>
      cases hB : B e1 with
      | none => simp [annotateChain, applyAnnot, hA, hB]
      | some e2 =>
        simp only [annotateChain, applyAnnot, hA, hB, Option.bind_some]
        cases hC : C e2 <;> simp [hB, hC]
  · rw [annotateChain_descs]
    simp [foldl_wrap_msg]

/-- Claim C2: round-trip identity: Catch on a non-nil error with the problem
    omitted panics with exactly that error wrapped in CatError, and Recover
    with an error-pointer target and zero steps unwraps it and stores exactly
    the original error value in the output slot, with no wrapping
    artifacts. -/
theorem catch_recover_roundtrip (E : GoError) (slot0 : Option GoError) :
    Catch (.errv E) [] = some E ∧
    Recover .errRef slot0 (catchPanic (.errv E) []) [] =
      .done (some E) (some (some E)) := ⟨rfl, rfl⟩

/-- Claim C3: Catch returns normally (no panic, no effect) exactly when the
    condition is the nil interface, a nil error interface, or the boolean
    false; every other condition makes it abort. -/
theorem catch_returns_iff (cond : CondVal) (probs : List ProbVal) :
    Catch cond probs = none ↔
      (cond = CondVal.nilv ∨ cond = CondVal.errNil ∨ cond = CondVal.boolean false) := by
  cases cond with
  | nilv => simp [Catch]
  | errNil => simp [Catch]
  | errv e =>
    simp only [Catch]
    cases problemHead probs <;> simp
  | boolean b =>
    cases b with
    | false => simp [Catch]
    | true =>
      simp only [Catch, if_true]
      cases problemHead probs <;> simp
  | otherv t => simp [Catch]

/-- Claim C4: for every condition that is neither nil, a boolean nor an
    error, Catch aborts with an error wrapping the bad-usage sentinel, and
    after interception by Recover the error stored in the output slot matches
    ErrBadCatch under unwrap-style matching. -/
theorem catch_bad_condition_sentinel (t : String) (probs : List ProbVal)
    (slot0 : Option GoError) :
    ∃ e, Catch (.otherv t) probs = some e ∧
      Recover .errRef slot0 (catchPanic (.otherv t) probs) [] =
        .done (some e) (some (some e)) ∧
      e.is .errBadCatch = true := by
  refine ⟨.wrapTail .errBadCatch (": unknown catch condition type: " ++ t), rfl, rfl, rfl⟩

/-- Claim C5: when a transform step of the chain returns no error, the chain
    halts permanently: whatever steps follow, the chain result is no error,
    and Recover writes no error to the output slot. -/
theorem transform_nil_halts (f : GoError → Option GoError) (E e1 : GoError)
    (pre rest : List Annot) (slot0 : Option GoError)
    (h1 : annotateChain E pre = some e1) (h2 : f e1 = none) :
    annotateChain E (pre ++ Annot.fn f :: rest) = none ∧
    Recover .errRef slot0 (some (.goErr (.catErr E))) (pre ++ Annot.fn f :: rest) =
      .done none (some none) := by
  have hc : annotateChain E (pre ++ Annot.fn f :: rest) = none := by
    rw [annotateChain_append, h1]
    simp [annotateChain, applyAnnot, h2]
  exact ⟨hc, by simp [Recover, recoverBody, recoverCaptured, capturePanic, annotateOpt, hc]⟩

/-- Witness for claim C5 at a concrete input: a transform returning no error
    in front of a description step that is never reached. -/
theorem transform_nil_halts_witness :
    annotateChain (.txt "boom") ([] ++ Annot.fn (fun _ => none) :: [Annot.str "next"]) =
      none ∧
    Recover .errRef none (some (.goErr (.catErr (.txt "boom"))))
        ([] ++ Annot.fn (fun _ => none) :: [Annot.str "next"]) =
      .done none (some none) :=
  transform_nil_halts (fun _ => none) (.txt "boom") (.txt "boom") [] [Annot.str "next"]
    none rfl rfl

/-- Claim C6: once Recover has been activated on a context, every call of its
    Catch method panics with the misuse fault, deterministically, whatever the
    condition and problem arguments are; it is never a silent no-op. -/
theorem token_catch_after_recover_faults (h : Bool) (cond : CondVal)
    (probs : List ProbVal) :
    context.Catch ⟨h, true⟩ cond probs = some (.raw catchAfterRecoveryFault) := rfl

/-- Claim C7: the first Recover activation on a context succeeds, marking the
    context consumed, and every Recover activation on an already consumed
    context aborts with the duplicate-boundary fault. -/
theorem duplicate_recover_faults (h : Bool) (slot0 : Option GoError)
    (inflight : Option PanicVal) (ann : List Annot) :
    context.OnRecover ⟨h, false⟩ = .ok ⟨h, true⟩ ∧
    (∃ cap w, Recover (.ctx ⟨h, false⟩) slot0 inflight ann = .done cap w) ∧
    Recover (.ctx ⟨h, true⟩) slot0 inflight ann = .fault dupRecoverFault :=
  ⟨rfl, ⟨_, _, rfl⟩, rfl⟩

/-- Claim C8 counterexample: the misuse fault raised by calling Catch through
    a consumed context is absorbed by an enclosing Recover boundary: at this
    concrete input the boundary completes normally and writes an ordinary
    error carrying the fault text into the output slot, contradicting the
    claim that such an abort is never absorbed. -/
theorem misuse_fault_absorbed_counterexample :
    context.Catch ⟨false, true⟩ .nilv [] = some (.raw catchAfterRecoveryFault) ∧
    Recover .errRef none (some (.raw catchAfterRecoveryFault)) [] =
      .done (some (.txt catchAfterRecoveryFault))
        (some (some (.txt catchAfterRecoveryFault))) := ⟨rfl, rfl⟩

/-- Claim C8 amended: the misuse faults are raised as plain string panics,
    never wrapped in the CatError failure type, which keeps them distinct from
    the propagated-failure path; but they are not unrecoverable: an enclosing
    Recover boundary absorbs either fault like any foreign panic, converting
    it into an ordinary error carrying the fault text and writing it to the
    output slot. -/
theorem misuse_fault_absorbed_amended (h : Bool) (cond : CondVal)
    (probs : List ProbVal) (slot0 : Option GoError) :
    context.Catch ⟨h, true⟩ cond probs = some (.raw catchAfterRecoveryFault) ∧
    Recover .errRef slot0 (some (.raw catchAfterRecoveryFault)) [] =
      .done (some (.txt catchAfterRecoveryFault))
        (some (some (.txt catchAfterRecoveryFault))) ∧
    Recover .errRef slot0 (some (.raw dupRecoverFault)) [] =
      .done (some (.txt dupRecoverFault)) (some (some (.txt dupRecoverFault))) :=
  ⟨rfl, rfl, rfl⟩

/-- Claim C9: when Recover activates with no abort in flight it starts from
    the current value of the output slot: a non-nil slot value is run through
    the annotation chain and the result written back; a nil slot value skips
    the chain and the slot is left holding no error, whatever the chain
    is. -/
theorem recover_uses_slot_value (e : GoError) (ann : List Annot) :
    Recover .errRef (some e) none ann =
      .done (annotateChain e ann) (some (annotateChain e ann)) ∧
    Recover .errRef none none ann = .done none (some none) := ⟨rfl, rfl⟩

/-- Claim C10: a Recover target of an undocumented type is silently treated
    as no target: Recover does not fault, still absorbs any in-flight abort,
    still runs the annotation chain on it, and discards the final result
    without writing any output slot. -/
theorem recover_unknown_target_silent (t : String) (slot0 : Option GoError)
    (inflight : Option PanicVal) (ann : List Annot) :
    Recover (.otherv t) slot0 inflight ann =
      .done (annotateOpt (inflight.map capturePanic) ann) none := by
  cases inflight <;> rfl
